import Mathlib

/-!
Shallow embedding of the Magenta debug syscall layer
(`kernel/lib/syscalls/syscalls_debug.cpp`).

The syscall bodies are translated directly from the C++ source.  External
collaborators whose code is not part of this slice (handle lookup with
rights check, `VmAspace::FindRegion`, `VmObject::ReadUser`/`WriteUser`,
the arch thread-state reader, the ktrace buffer, the user-copy
primitives) are modelled from the specification, as marked on each such
definition.  Machine words are modelled as `Nat`; status codes as an
inductive enumeration of the `ERR_*` constants actually used.
-/

set_option autoImplicit false

namespace Magenta

/-- The status codes used by this syscall layer (`err.h` constants). -/
inductive MxStatus where
  | NO_ERROR
  | ERR_INVALID_ARGS
  | ERR_BAD_HANDLE
  | ERR_WRONG_TYPE
  | ERR_ACCESS_DENIED
  | ERR_BAD_STATE
  | ERR_NO_MEMORY
  | ERR_BUFFER_TOO_SMALL
  | ERR_UNAVAILABLE
deriving DecidableEq, Repr

open MxStatus

/-- Handle rights; only `MX_RIGHT_READ` and `MX_RIGHT_WRITE` are consulted
by this layer. -/
structure Rights where
  read : Bool
  write : Bool
deriving DecidableEq, Repr

/-- `req` is a subset of the rights `h` actually held. -/
def Rights.includes (h req : Rights) : Bool :=
  (!req.read || h.read) && (!req.write || h.write)

/-- Both READ and WRITE, as in `MX_RIGHT_READ | MX_RIGHT_WRITE`. -/
def rightsRW : Rights := ⟨true, true⟩

/-- WRITE only, as in `MX_RIGHT_WRITE`. -/
def rightsW : Rights := ⟨false, true⟩

/-- READ only, as in `MX_RIGHT_READ`. -/
def rightsR : Rights := ⟨true, false⟩

/-- A VM object: an addressable byte container.  Bytes are `Nat` values. -/
structure VmObject where
  data : List Nat
deriving DecidableEq, Repr

/-- A mapped region.  `vmoId` refers into the VMO store (the reference is
shared between regions, so the object itself lives outside the region);
`none` models a region whose `vmo()` accessor returns null. -/
structure VmRegion where
  base : Nat
  size : Nat
  object_offset : Nat
  vmoId : Option Nat
deriving DecidableEq, Repr

/-- An address space: its collection of mapped regions. -/
structure VmAspace where
  regions : List VmRegion
deriving DecidableEq, Repr

/-- Modelled from the spec: the Address Space Resolver finds the mapped
region containing a virtual address (regions are non-overlapping). -/
def VmAspace.FindRegion (a : VmAspace) (vaddr : Nat) : Option VmRegion :=
  a.regions.find? (fun r => decide (r.base ≤ vaddr) && decide (vaddr < r.base + r.size))

/-- A process dispatcher: identity plus (if live) its address space. -/
structure ProcessDispatcher where
  pid : Nat
  aspace : Option VmAspace
deriving DecidableEq, Repr

/-- A thread dispatcher: identity plus its register-state blobs, one per
state kind. -/
structure ThreadDispatcher where
  tid : Nat
  stateKinds : List (Nat × List Nat)
deriving DecidableEq, Repr

/-- The capability-bearing object a handle refers to. -/
inductive Dispatcher where
  | process (p : ProcessDispatcher)
  | thread (t : ThreadDispatcher)
  | other (tag : Nat)
deriving DecidableEq, Repr

/-- A handle-table entry: object reference plus rights bitmask. -/
structure Handle where
  obj : Dispatcher
  rights : Rights
deriving DecidableEq, Repr

/-- A handle table: handle values to entries. -/
abbrev HandleTable := List (Nat × Handle)

/-- Look up a handle value in a table. -/
def lookupHandle (tbl : HandleTable) (hv : Nat) : Option Handle :=
  (tbl.find? (fun e => e.fst == hv)).map Prod.snd

/-- Remove a handle value from a table (as `RemoveHandle`). -/
def removeHandle (tbl : HandleTable) (hv : Nat) : HandleTable :=
  tbl.filter (fun e => e.fst != hv)

/-- Modelled from the spec: `ProcessDispatcher::GetDispatcher` specialised
to process dispatchers — resolves the handle in the caller's table,
checks the requested rights against the handle's rights, and checks the
object kind; failure is the handle/rights error. -/
def getProcess (tbl : HandleTable) (hv : Nat) (req : Rights) :
    Except MxStatus ProcessDispatcher :=
  match lookupHandle tbl hv with
  | none => .error ERR_BAD_HANDLE
  | some hd =>
    if hd.rights.includes req then
      match hd.obj with
      | .process p => .ok p
      | _ => .error ERR_WRONG_TYPE
    else .error ERR_ACCESS_DENIED

/-- Modelled from the spec: `ProcessDispatcher::GetDispatcher` specialised
to thread dispatchers. -/
def getThread (tbl : HandleTable) (hv : Nat) (req : Rights) :
    Except MxStatus ThreadDispatcher :=
  match lookupHandle tbl hv with
  | none => .error ERR_BAD_HANDLE
  | some hd =>
    if hd.rights.includes req then
      match hd.obj with
      | .thread t => .ok t
      | _ => .error ERR_WRONG_TYPE
    else .error ERR_ACCESS_DENIED

/-- The store of shared VM objects, keyed by id (VMO references are
shared, reference-counted, between regions). -/
abbrev VmoStore := List (Nat × VmObject)

def VmoStore.lookup (s : VmoStore) (id : Nat) : Option VmObject :=
  (s.find? (fun e => e.fst == id)).map Prod.snd

def VmoStore.update (s : VmoStore) (id : Nat) (v : VmObject) : VmoStore :=
  s.map (fun e => if e.fst == id then (e.fst, v) else e)

/-- `kMaxDebugWriteSize` -/
def kMaxDebugWriteSize : Nat := 256

/-- `kMaxDebugReadBlock` = 64 MiB -/
def kMaxDebugReadBlock : Nat := 64 * 1024 * 1024

/-- `kMaxDebugWriteBlock` = 64 MiB -/
def kMaxDebugWriteBlock : Nat := 64 * 1024 * 1024

/-- Modelled from the spec: `kMaxThreadStateSize` is a platform-fixed
maximum for the thread-state buffer; its exact value is
platform-dependent and does not affect the properties proved here. -/
def kMaxThreadStateSize : Nat := 1024

/-- The caller-side behaviour of the two user pointers of
`process_read_memory` / `process_write_memory`: whether the data buffer
is null, the status the user-copy through the data buffer produces
(`NO_ERROR` when the copy succeeds), and whether the `copy_to_user` of
the actual-size out-parameter succeeds. -/
structure UserMem where
  bufNull : Bool
  bufCopyStatus : MxStatus
  actualOk : Bool
deriving DecidableEq, Repr

/-- Modelled from the spec: `VmObject::ReadUser` — bounded read of up to
`len` bytes starting at `offset`, short at the end of the object; the
transfer fails with the user-copy status when the destination user
buffer is bad. Returns (status, bytes delivered, actual count). -/
def VmObject.ReadUser (v : VmObject) (um : UserMem) (offset len : Nat) :
    MxStatus × List Nat × Nat :=
  if um.bufCopyStatus = NO_ERROR then
    let bytes := (v.data.drop offset).take len
    (NO_ERROR, bytes, bytes.length)
  else (um.bufCopyStatus, [], 0)

/-- Modelled from the spec: `VmObject::WriteUser` — bounded write of up
to `len` bytes from the caller's buffer `src` starting at `offset`,
short at the end of the object. Returns (status, updated object, actual
count). -/
def VmObject.WriteUser (v : VmObject) (um : UserMem) (src : List Nat)
    (offset len : Nat) : MxStatus × VmObject × Nat :=
  if um.bufCopyStatus = NO_ERROR then
    let n := min len (v.data.length - offset)
    let chunk := (src.take len).take n
    (NO_ERROR,
     ⟨v.data.take offset ++ chunk ++ v.data.drop (offset + chunk.length)⟩,
     chunk.length)
  else (um.bufCopyStatus, v, 0)

/-- Result of `sys_process_read_memory`: return status, the bytes
delivered to the caller's buffer (if the transfer ran and succeeded),
and the value written to the actual-size out-parameter (if written). -/
structure ReadMemResult where
  status : MxStatus
  bytesOut : Option (List Nat)
  actualOut : Option Nat
deriving DecidableEq, Repr

/-- `sys_process_read_memory` (syscalls_debug.cpp:137-175). -/
def sys_process_read_memory (tbl : HandleTable) (store : VmoStore)
    (proc vaddr : Nat) (um : UserMem) (len : Nat) : ReadMemResult :=
  if um.bufNull then ⟨ERR_INVALID_ARGS, none, none⟩
  else if len = 0 ∨ len > kMaxDebugReadBlock then ⟨ERR_INVALID_ARGS, none, none⟩
  else
    match getProcess tbl proc rightsRW with
    | .error st => ⟨st, none, none⟩
    | .ok process =>
      match process.aspace with
      | none => ⟨ERR_BAD_STATE, none, none⟩
      | some aspace =>
        match aspace.FindRegion vaddr with
        | none => ⟨ERR_NO_MEMORY, none, none⟩
        | some region =>
          match region.vmoId.bind store.lookup with
          | none => ⟨ERR_NO_MEMORY, none, none⟩
          | some vmo =>
            let offset := vaddr - region.base + region.object_offset
            let (st, bytes, read) := vmo.ReadUser um offset len
            if st = NO_ERROR then
              if um.actualOk then ⟨NO_ERROR, some bytes, some read⟩
              else ⟨ERR_INVALID_ARGS, some bytes, none⟩
            else ⟨st, none, none⟩

/-- Result of `sys_process_write_memory`: return status, the value
written to the actual-size out-parameter (if written), and the VMO
store after the call. -/
structure WriteMemResult where
  status : MxStatus
  actualOut : Option Nat
  store : VmoStore
deriving DecidableEq, Repr

/-- `sys_process_write_memory` (syscalls_debug.cpp:177-214).  The
caller's source buffer is `src` when the user copy succeeds. -/
def sys_process_write_memory (tbl : HandleTable) (store : VmoStore)
    (proc vaddr : Nat) (um : UserMem) (src : List Nat) (len : Nat) :
    WriteMemResult :=
  if um.bufNull then ⟨ERR_INVALID_ARGS, none, store⟩
  else if len = 0 ∨ len > kMaxDebugWriteBlock then ⟨ERR_INVALID_ARGS, none, store⟩
  else
    match getProcess tbl proc rightsW with
    | .error st => ⟨st, none, store⟩
    | .ok process =>
      match process.aspace with
      | none => ⟨ERR_BAD_STATE, none, store⟩
      | some aspace =>
        match aspace.FindRegion vaddr with
        | none => ⟨ERR_NO_MEMORY, none, store⟩
        | some region =>
          match region.vmoId with
          | none => ⟨ERR_NO_MEMORY, none, store⟩
          | some id =>
            match store.lookup id with
            | none => ⟨ERR_NO_MEMORY, none, store⟩
            | some vmo =>
              let offset := vaddr - region.base + region.object_offset
              let (st, vmo2, written) := vmo.WriteUser um src offset len
              let store2 := store.update id vmo2
              if st = NO_ERROR then
                if um.actualOk then ⟨NO_ERROR, some written, store2⟩
                else ⟨ERR_INVALID_ARGS, none, store2⟩
              else ⟨st, none, store2⟩

instance {ε α : Type} [DecidableEq ε] [DecidableEq α] : DecidableEq (Except ε α) := fun a b =>
  match a, b with
  | .error x, .error y =>
    if h : x = y then isTrue (by rw [h]) else isFalse (fun hh => h (Except.error.inj hh))
  | .error _, .ok _ => isFalse (fun hh => Except.noConfusion hh)
  | .ok _, .error _ => isFalse (fun hh => Except.noConfusion hh)
  | .ok x, .ok y =>
    if h : x = y then isTrue (by rw [h]) else isFalse (fun hh => h (Except.ok.inj hh))

/-- Result of `sys_debug_transfer_handle`: the returned handle value (or
status), the caller's handle table afterwards, and the handle inserted
into the target process (target pid, entry), when one was. -/
structure TransferResult where
  result : Except MxStatus Nat
  callerTableAfter : HandleTable
  inserted : Option (Nat × Handle)
deriving DecidableEq, Repr

/-- `sys_debug_transfer_handle` (syscalls_debug.cpp:115-135).
`upPid` is the calling process; `mapVal` models
`ProcessDispatcher::MapHandleToValue`, the value the moved handle takes
in the target's table. -/
def sys_debug_transfer_handle (upPid : Nat) (tbl : HandleTable)
    (mapVal : Handle → Nat) (proc src_handle : Nat) : TransferResult :=
  match getProcess tbl proc rightsRW with
  | .error st => ⟨.error st, tbl, none⟩
  | .ok process =>
    if process.pid = upPid then ⟨.error ERR_INVALID_ARGS, tbl, none⟩
    else
      match lookupHandle tbl src_handle with
      | none => ⟨.error ERR_BAD_HANDLE, tbl, none⟩
      | some hd =>
        let tbl2 := removeHandle tbl src_handle
        let dest_hv := mapVal hd
        ⟨.ok dest_hv, tbl2, some (process.pid, hd)⟩

/-- Modelled from the spec: the thread's state reader
(`UserThread::ReadState`).  Given the blob for the requested state kind:
an undersized buffer yields "buffer too small" with the true required
size reported; otherwise the blob is produced and its size reported.  An
unknown state kind is rejected.  Returns (status, reported length,
bytes filled into the kernel buffer). -/
def threadReadState (t : ThreadDispatcher) (state_kind buffer_len : Nat) :
    MxStatus × Nat × List Nat :=
  match (t.stateKinds.find? (fun e => e.fst == state_kind)).map Prod.snd with
  | none => (ERR_INVALID_ARGS, buffer_len, [])
  | some blob =>
    if buffer_len < blob.length then (ERR_BUFFER_TOO_SMALL, blob.length, [])
    else (NO_ERROR, blob.length, blob)

/-- The caller-side behaviour of the user pointers of
`thread_read_state`: the value read from the in/out length pointer
(`none` models a faulting `copy_from_user`), whether allocation of the
temporary buffer succeeds, whether the `copy_to_user` of the length
succeeds, and whether the `copy_array_to_user` of the bytes succeeds. -/
structure ThreadReadEnv where
  lenIn : Option Nat
  allocOk : Bool
  lenOutOk : Bool
  bufOutOk : Bool
deriving DecidableEq, Repr

/-- Result of `sys_thread_read_state`: return status, the value written
back through the length in/out pointer (if written), and the bytes
copied out to the caller's buffer (if copied). -/
structure ThreadReadResult where
  status : MxStatus
  lenOut : Option Nat
  bytesOut : Option (List Nat)
deriving DecidableEq, Repr

/-- `sys_thread_read_state` (syscalls_debug.cpp:268-311). -/
def sys_thread_read_state (tbl : HandleTable) (handle state_kind : Nat)
    (env : ThreadReadEnv) : ThreadReadResult :=
  match getThread tbl handle rightsR with
  | .error st => ⟨st, none, none⟩
  | .ok thread =>
    match env.lenIn with
    | none => ⟨ERR_INVALID_ARGS, none, none⟩
    | some buffer_len =>
      if buffer_len > kMaxThreadStateSize then ⟨ERR_INVALID_ARGS, none, none⟩
      else if !env.allocOk then ⟨ERR_NO_MEMORY, none, none⟩
      else
        let (st, newLen, bytes) := threadReadState thread state_kind buffer_len
        if st = NO_ERROR ∨ st = ERR_BUFFER_TOO_SMALL then
          if !env.lenOutOk then ⟨ERR_INVALID_ARGS, none, none⟩
          else if st ≠ NO_ERROR then ⟨st, some newLen, none⟩
          else if !env.bufOutOk then ⟨ERR_INVALID_ARGS, some newLen, none⟩
          else ⟨NO_ERROR, some newLen, some bytes⟩
        else ⟨st, none, none⟩

/-- The environment of `sys_ktrace_write`: the status of
`validate_resource_handle` on the resource handle, and whether
`ktrace_open` can produce a probe slot (`none` when the log is full or
disabled). -/
structure KtraceEnv where
  resourceStatus : MxStatus
  slotAvailable : Bool
deriving DecidableEq, Repr

/-- Result of `sys_ktrace_write`: return status and the two words
written into the opened probe slot, when one was opened. -/
structure KtraceWriteResult where
  status : MxStatus
  slot : Option (Nat × Nat)
deriving DecidableEq, Repr

/-- `sys_ktrace_write` (syscalls_debug.cpp:246-266).  `validate_resource_handle`
and `ktrace_open` are modelled from the spec through `env`. -/
def sys_ktrace_write (env : KtraceEnv) (event_id arg0 arg1 : Nat) :
    KtraceWriteResult :=
  if env.resourceStatus ≠ NO_ERROR then ⟨env.resourceStatus, none⟩
  else if event_id > 0x7FF then ⟨ERR_INVALID_ARGS, none⟩
  else if !env.slotAvailable then ⟨ERR_UNAVAILABLE, none⟩
  else ⟨NO_ERROR, some (arg0, arg1)⟩

/-- Result of `sys_debug_write`: the returned value (byte count, or a
status on failure) and the bytes emitted to the console. -/
structure DebugWriteResult where
  ret : Except MxStatus Nat
  emitted : List Nat
deriving DecidableEq, Repr

/-- `sys_debug_write` (syscalls_debug.cpp:78-92).  `userBuf` is the
caller's accessible buffer contents; modelled from the spec,
`magenta_copy_from_user` of `n` bytes succeeds exactly when `n`
bytes are accessible, and fails the call with `InvalidArgument`
otherwise. -/
def sys_debug_write (userBuf : List Nat) (len : Nat) : DebugWriteResult :=
  let len2 := if len > kMaxDebugWriteSize then kMaxDebugWriteSize else len
  if len2 ≤ userBuf.length then
    ⟨.ok len2, userBuf.take len2⟩
  else ⟨.error ERR_INVALID_ARGS, []⟩

/-! ### Concrete states used to exercise the syscalls -/

/-- A region mapping `[4096, 4112)` to object 7 at object-offset 0. -/
def regA : VmRegion := ⟨4096, 16, 0, some 7⟩

/-- A live process whose address space maps `regA`. -/
def procA : ProcessDispatcher := ⟨1, some ⟨[regA]⟩⟩

/-- A caller table granting READ+WRITE on `procA` through handle 5. -/
def tblA : HandleTable := [(5, ⟨.process procA, ⟨true, true⟩⟩)]

/-- The VMO store: object 7 holds 16 zero bytes. -/
def storeA : VmoStore := [(7, ⟨List.replicate 16 0⟩)]

/-- A caller table granting only READ on `procA` through handle 5. -/
def tblRO : HandleTable := [(5, ⟨.process procA, ⟨true, false⟩⟩)]

/-- A caller table whose handle 5 names a torn-down process (no address
space), with full rights. -/
def tblDead : HandleTable := [(5, ⟨.process ⟨2, none⟩, ⟨true, true⟩⟩)]

/-- Well-behaved user pointers. -/
def umOK : UserMem := ⟨false, MxStatus.NO_ERROR, true⟩

/-- User pointers whose actual-size out-parameter copy fails. -/
def umBadActual : UserMem := ⟨false, MxStatus.NO_ERROR, false⟩

/-- A thread whose state kind 0 is a 4-byte blob. -/
def thrT : ThreadDispatcher := ⟨3, [(0, [10, 11, 12, 13])]⟩

/-- A caller table granting READ on `thrT` through handle 6. -/
def tblT : HandleTable := [(6, ⟨.thread thrT, ⟨true, false⟩⟩)]

/-! ### Helper lemmas -/

theorem kMaxBlocks_eq : kMaxDebugWriteBlock = kMaxDebugReadBlock := rfl

theorem VmoStore.lookup_cons (e : Nat × VmObject) (s : VmoStore) (id : Nat) :
    VmoStore.lookup (e :: s) id =
      if e.fst == id then some e.snd else s.lookup id := by
  unfold VmoStore.lookup
  rw [List.find?_cons]
  cases hb : (e.fst == id) <;> simp [hb]

theorem VmoStore.update_cons (e : Nat × VmObject) (s : VmoStore) (id : Nat) (v : VmObject) :
    VmoStore.update (e :: s) id v =
      (if e.fst == id then (e.fst, v) else e) :: s.update id v := rfl

/-- Updating the entry a lookup found makes the lookup return the new
object. -/
theorem VmoStore.lookup_update (s : VmoStore) (id : Nat) (v v2 : VmObject)
    (h : s.lookup id = some v) : (s.update id v2).lookup id = some v2 := by
  induction s with
  | nil => simp [VmoStore.lookup] at h
  | cons e rest ih =>
    rw [VmoStore.lookup_cons] at h
    rw [VmoStore.update_cons]
    cases hb : (e.fst == id)
    · rw [hb] at h
      simp at h
      rw [if_neg (by simp [hb]), VmoStore.lookup_cons, if_neg (by simp [hb])]
      exact ih h
    · rw [if_pos (by simp [hb]), VmoStore.lookup_cons]
      simp [hb]

/-- A table entry holding a process with sufficient rights makes
`getProcess` succeed. -/
theorem getProcess_of_entry (tbl : HandleTable) (hv : Nat)
    (p : ProcessDispatcher) (r : Rights) (req : Rights)
    (hlook : lookupHandle tbl hv = some ⟨.process p, r⟩)
    (hr : r.includes req = true) :
    getProcess tbl hv req = .ok p := by
  unfold getProcess
  rw [hlook]
  simp [hr]

/-- When argument checks pass and the target resolves all the way to a
backing object, `sys_process_read_memory` is decided by the outcome of
the storage-object transfer. -/
theorem sys_process_read_memory_resolved (tbl : HandleTable) (store : VmoStore)
    (proc vaddr : Nat) (um : UserMem) (len : Nat)
    (p : ProcessDispatcher) (a : VmAspace) (rg : VmRegion) (id : Nat)
    (v : VmObject) (st : MxStatus) (bytes : List Nat) (cnt : Nat)
    (hnull : um.bufNull = false) (hlen0 : len ≠ 0)
    (hlenM : len ≤ kMaxDebugReadBlock)
    (hget : getProcess tbl proc rightsRW = .ok p)
    (hasp : p.aspace = some a)
    (hreg : a.FindRegion vaddr = some rg)
    (hid : rg.vmoId = some id)
    (hv : store.lookup id = some v)
    (hres : v.ReadUser um (vaddr - rg.base + rg.object_offset) len = (st, bytes, cnt)) :
    sys_process_read_memory tbl store proc vaddr um len =
      (if st = MxStatus.NO_ERROR then
        if um.actualOk then ⟨MxStatus.NO_ERROR, some bytes, some cnt⟩
        else ⟨MxStatus.ERR_INVALID_ARGS, some bytes, none⟩
      else ⟨st, none, none⟩) := by
  unfold sys_process_read_memory
  rw [hget]
  have hargs : ¬(len = 0 ∨ len > kMaxDebugReadBlock) := by
    push_neg
    exact ⟨hlen0, hlenM⟩
  have hbind : rg.vmoId.bind store.lookup = some v := by
    rw [hid]
    exact hv
  simp only [hnull, Bool.false_eq_true, if_false, hargs, hasp, hreg, hbind, hres]

/-- When argument checks pass and the target resolves all the way to a
backing object, `sys_process_write_memory` is decided by the outcome of
the storage-object transfer. -/
theorem sys_process_write_memory_resolved (tbl : HandleTable) (store : VmoStore)
    (proc vaddr : Nat) (um : UserMem) (src : List Nat) (len : Nat)
    (p : ProcessDispatcher) (a : VmAspace) (rg : VmRegion) (id : Nat)
    (v : VmObject) (st : MxStatus) (vmo2 : VmObject) (written : Nat)
    (hnull : um.bufNull = false) (hlen0 : len ≠ 0)
    (hlenM : len ≤ kMaxDebugWriteBlock)
    (hget : getProcess tbl proc rightsW = .ok p)
    (hasp : p.aspace = some a)
    (hreg : a.FindRegion vaddr = some rg)
    (hid : rg.vmoId = some id)
    (hv : store.lookup id = some v)
    (hres : v.WriteUser um src (vaddr - rg.base + rg.object_offset) len =
      (st, vmo2, written)) :
    sys_process_write_memory tbl store proc vaddr um src len =
      (if st = MxStatus.NO_ERROR then
        if um.actualOk then ⟨MxStatus.NO_ERROR, some written, store.update id vmo2⟩
        else ⟨MxStatus.ERR_INVALID_ARGS, none, store.update id vmo2⟩
      else ⟨st, none, store.update id vmo2⟩) := by
  unfold sys_process_write_memory
  rw [hget]
  have hargs : ¬(len = 0 ∨ len > kMaxDebugWriteBlock) := by
    push_neg
    exact ⟨hlen0, hlenM⟩
  simp only [hnull, Bool.false_eq_true, if_false, hargs, hasp, hreg, hid, hv, hres]

/-- A write whose resolved range lies inside the object transfers all
`len` bytes and splices them into the object's data. -/
theorem VmObject.WriteUser_fits (v : VmObject) (um : UserMem) (src : List Nat)
    (offset len : Nat)
    (hcopy : um.bufCopyStatus = MxStatus.NO_ERROR)
    (hsrc : src.length = len)
    (hfit : offset + len ≤ v.data.length) :
    v.WriteUser um src offset len =
      (MxStatus.NO_ERROR,
       ⟨v.data.take offset ++ src ++ v.data.drop (offset + len)⟩, len) := by
  unfold VmObject.WriteUser
  rw [hcopy]
  have hn : min len (v.data.length - offset) = len :=
    min_eq_left (by omega)
  have hchunk : (src.take len).take (min len (v.data.length - offset)) = src := by
    rw [hn, List.take_take, min_self, ← hsrc, List.take_length]
  simp only [if_pos rfl, hchunk, hsrc, if_true]

/-- A read of a spliced object over exactly the spliced range returns the
spliced bytes. -/
theorem VmObject.ReadUser_spliced (pre src post : List Nat) (um : UserMem)
    (offset len : Nat)
    (hcopy : um.bufCopyStatus = MxStatus.NO_ERROR)
    (hpre : pre.length = offset)
    (hsrc : src.length = len) :
    VmObject.ReadUser ⟨pre ++ src ++ post⟩ um offset len =
      (MxStatus.NO_ERROR, src, len) := by
  unfold VmObject.ReadUser
  rw [hcopy]
  have hdrop : (pre ++ src ++ post).drop offset = src ++ post := by
    rw [List.append_assoc]
    exact List.drop_left' hpre
  have htake : (src ++ post).take len = src := List.take_left' hsrc
  simp only [if_pos rfl, hdrop, htake, hsrc, if_true]

/-! ### Claim theorems -/

/-- C5: for every call to `process_read_memory` or `process_write_memory`
with a null buffer, a zero length, or a length above 64 MiB, the call
returns `InvalidArgument` with no handle lookup, address resolution or
transfer: the result carries no outputs and leaves the store unchanged,
whatever the handle table, store, handle value and address. -/
theorem C5_memory_arg_checks_first (tbl : HandleTable) (store : VmoStore)
    (proc vaddr : Nat) (um : UserMem) (src : List Nat) (len : Nat)
    (h : um.bufNull = true ∨ len = 0 ∨ len > kMaxDebugReadBlock) :
    sys_process_read_memory tbl store proc vaddr um len =
      ⟨MxStatus.ERR_INVALID_ARGS, none, none⟩ ∧
    sys_process_write_memory tbl store proc vaddr um src len =
      ⟨MxStatus.ERR_INVALID_ARGS, none, store⟩ := by
  unfold sys_process_read_memory sys_process_write_memory
  cases hb : um.bufNull with
  | true => simp
  | false =>
    rcases h with h | h | h
    · rw [hb] at h
      exact absurd h (by simp)
    · simp [h]
    · have hz : ¬(len = 0) := by
        unfold kMaxDebugReadBlock at h
        omega
      rw [kMaxBlocks_eq]
      simp [h, hz]

/-- C5 witness: a zero-length read and write both fail with
`InvalidArgument` against the concrete state. -/
theorem C5_memory_arg_checks_first_witness :
    sys_process_read_memory tblA storeA 5 4096 umOK 0 =
      ⟨MxStatus.ERR_INVALID_ARGS, none, none⟩ ∧
    sys_process_write_memory tblA storeA 5 4096 umOK [1] 0 =
      ⟨MxStatus.ERR_INVALID_ARGS, none, storeA⟩ :=
  C5_memory_arg_checks_first tblA storeA 5 4096 umOK [1] 0 (Or.inr (Or.inl rfl))

/-- C7: with a valid resource handle, `ktrace_write` rejects event ids
above `0x7FF` with `InvalidArgument`; below that bound it returns
`Unavailable` when no probe slot can be opened, and otherwise writes
`(arg0, arg1)` into the opened slot and returns success. -/
theorem C7_ktrace_write_paths (env : KtraceEnv) (event_id arg0 arg1 : Nat)
    (hres : env.resourceStatus = MxStatus.NO_ERROR) :
    (event_id > 0x7FF →
      sys_ktrace_write env event_id arg0 arg1 = ⟨MxStatus.ERR_INVALID_ARGS, none⟩) ∧
    (event_id ≤ 0x7FF → env.slotAvailable = false →
      sys_ktrace_write env event_id arg0 arg1 = ⟨MxStatus.ERR_UNAVAILABLE, none⟩) ∧
    (event_id ≤ 0x7FF → env.slotAvailable = true →
      sys_ktrace_write env event_id arg0 arg1 = ⟨MxStatus.NO_ERROR, some (arg0, arg1)⟩) := by
  unfold sys_ktrace_write
  refine ⟨fun h1 => ?_, fun h1 h2 => ?_, fun h1 h2 => ?_⟩
  · simp [hres, h1]
  · simp [hres, Nat.not_lt.mpr h1, h2]
  · simp [hres, Nat.not_lt.mpr h1, h2]

/-- C7 witness: event id `0x7FF` with a slot available succeeds and
populates the slot; event id `0x800` is rejected. -/
theorem C7_ktrace_write_paths_witness :
    sys_ktrace_write ⟨MxStatus.NO_ERROR, true⟩ 0x7FF 1 2 =
      ⟨MxStatus.NO_ERROR, some (1, 2)⟩ ∧
    sys_ktrace_write ⟨MxStatus.NO_ERROR, true⟩ 0x800 1 2 =
      ⟨MxStatus.ERR_INVALID_ARGS, none⟩ :=
  ⟨(C7_ktrace_write_paths ⟨MxStatus.NO_ERROR, true⟩ 0x7FF 1 2 rfl).2.2 (by decide) rfl,
   (C7_ktrace_write_paths ⟨MxStatus.NO_ERROR, true⟩ 0x800 1 2 rfl).1 (by decide)⟩

/-- C9: a `debug_write` of more than 256 bytes is clamped: exactly the
first 256 bytes of the caller's buffer are emitted to the console and
the return value is 256. -/
theorem C9_debug_write_clamp (userBuf : List Nat) (len : Nat)
    (hlen : len > kMaxDebugWriteSize)
    (hbuf : kMaxDebugWriteSize ≤ userBuf.length) :
    sys_debug_write userBuf len = ⟨.ok 256, userBuf.take 256⟩ := by
  unfold sys_debug_write
  rw [if_pos hlen, if_pos (by simpa [kMaxDebugWriteSize] using hbuf)]
  rfl

/-- C9 witness: a 300-byte write from a 300-byte buffer emits the first
256 bytes and returns 256. -/
theorem C9_debug_write_clamp_witness :
    sys_debug_write (List.replicate 300 7) 300 =
      ⟨.ok 256, (List.replicate 300 7).take 256⟩ :=
  C9_debug_write_clamp (List.replicate 300 7) 300 (by decide)
    (by rw [List.length_replicate]; decide)

/-- C4: when the target-process handle resolves with READ+WRITE rights to
the calling process itself, `debug_transfer_handle` returns
`InvalidArgument` for every source handle value, without looking up or
removing the source handle: the caller's table is unchanged and nothing
is inserted anywhere. -/
theorem C4_self_transfer_rejected (upPid : Nat) (tbl : HandleTable)
    (mapVal : Handle → Nat) (proc src_handle : Nat)
    (p : ProcessDispatcher) (r : Rights)
    (hlook : lookupHandle tbl proc = some ⟨.process p, r⟩)
    (hr : r.includes rightsRW = true)
    (hself : p.pid = upPid) :
    sys_debug_transfer_handle upPid tbl mapVal proc src_handle =
      ⟨.error MxStatus.ERR_INVALID_ARGS, tbl, none⟩ := by
  unfold sys_debug_transfer_handle
  rw [getProcess_of_entry tbl proc p r rightsRW hlook hr]
  simp [hself]

/-- C4 witness: transferring handle 77 (which does not even exist) with a
target handle that names the caller itself is rejected and the table is
untouched. -/
theorem C4_self_transfer_rejected_witness :
    sys_debug_transfer_handle 1 tblA (fun _ => 99) 5 77 =
      ⟨.error MxStatus.ERR_INVALID_ARGS, tblA, none⟩ :=
  C4_self_transfer_rejected 1 tblA (fun _ => 99) 5 77 procA ⟨true, true⟩
    rfl rfl rfl

/-- C1: `process_read_memory` resolves the target-process handle
requiring both READ and WRITE rights: a missing handle fails with the
handle error, an entry missing either right fails with the rights error,
and whenever the lookup fails with any error the call returns exactly
that error with no bytes transferred and no actual size written, for
every store. -/
theorem C1_read_memory_requires_rw (tbl : HandleTable) (store : VmoStore)
    (proc vaddr : Nat) (um : UserMem) (len : Nat)
    (hnull : um.bufNull = false) (hlen0 : len ≠ 0)
    (hlenM : len ≤ kMaxDebugReadBlock) :
    (∀ st, getProcess tbl proc rightsRW = .error st →
      sys_process_read_memory tbl store proc vaddr um len = ⟨st, none, none⟩) ∧
    (lookupHandle tbl proc = none →
      getProcess tbl proc rightsRW = .error MxStatus.ERR_BAD_HANDLE) ∧
    (∀ hd, lookupHandle tbl proc = some hd →
      hd.rights.read = false ∨ hd.rights.write = false →
      getProcess tbl proc rightsRW = .error MxStatus.ERR_ACCESS_DENIED) := by
  refine ⟨fun st hget => ?_, fun hnone => ?_, fun hd hsome hr => ?_⟩
  · unfold sys_process_read_memory
    rw [hget]
    simp [hnull, hlen0, Nat.not_lt.mpr hlenM]
  · unfold getProcess
    rw [hnone]
  · unfold getProcess
    rw [hsome]
    have : hd.rights.includes rightsRW = false := by
      rcases hr with hr | hr <;> simp [Rights.includes, rightsRW, hr]
    simp [this]

/-- C1 witness: a handle carrying only READ rights is refused with the
rights error and nothing is transferred. -/
theorem C1_read_memory_requires_rw_witness :
    sys_process_read_memory tblRO storeA 5 4096 umOK 4 =
      ⟨MxStatus.ERR_ACCESS_DENIED, none, none⟩ :=
  (C1_read_memory_requires_rw tblRO storeA 5 4096 umOK 4 rfl
    (by decide) (by decide)).1 MxStatus.ERR_ACCESS_DENIED rfl

/-- C3: for memory calls that pass the argument and handle/rights checks:
a target with no live address space yields `BadState`; a live target
with no region containing `vaddr` yields `NoMemory` (the resolver finds
no region exactly when no region contains the address); a found region
with no backing storage object yields `NoMemory`.  Both directions of
the syscall behave alike, and no outputs are produced. -/
theorem C3_target_state_errors (tbl : HandleTable) (store : VmoStore)
    (proc vaddr : Nat) (um : UserMem) (src : List Nat) (len : Nat)
    (hnull : um.bufNull = false) (hlen0 : len ≠ 0)
    (hlenM : len ≤ kMaxDebugReadBlock) :
    (∀ a : VmAspace, a.FindRegion vaddr = none ↔
      ∀ r ∈ a.regions, ¬(r.base ≤ vaddr ∧ vaddr < r.base + r.size)) ∧
    (∀ p, getProcess tbl proc rightsRW = .ok p → p.aspace = none →
      sys_process_read_memory tbl store proc vaddr um len =
        ⟨MxStatus.ERR_BAD_STATE, none, none⟩) ∧
    (∀ p a, getProcess tbl proc rightsRW = .ok p → p.aspace = some a →
      a.FindRegion vaddr = none →
      sys_process_read_memory tbl store proc vaddr um len =
        ⟨MxStatus.ERR_NO_MEMORY, none, none⟩) ∧
    (∀ p a rg, getProcess tbl proc rightsRW = .ok p → p.aspace = some a →
      a.FindRegion vaddr = some rg → rg.vmoId.bind store.lookup = none →
      sys_process_read_memory tbl store proc vaddr um len =
        ⟨MxStatus.ERR_NO_MEMORY, none, none⟩) ∧
    (∀ p, getProcess tbl proc rightsW = .ok p → p.aspace = none →
      sys_process_write_memory tbl store proc vaddr um src len =
        ⟨MxStatus.ERR_BAD_STATE, none, store⟩) ∧
    (∀ p a, getProcess tbl proc rightsW = .ok p → p.aspace = some a →
      a.FindRegion vaddr = none →
      sys_process_write_memory tbl store proc vaddr um src len =
        ⟨MxStatus.ERR_NO_MEMORY, none, store⟩) ∧
    (∀ p a rg, getProcess tbl proc rightsW = .ok p → p.aspace = some a →
      a.FindRegion vaddr = some rg → rg.vmoId.bind store.lookup = none →
      sys_process_write_memory tbl store proc vaddr um src len =
        ⟨MxStatus.ERR_NO_MEMORY, none, store⟩) := by
  have hargs : ¬(len = 0 ∨ len > kMaxDebugReadBlock) := by
    push_neg
    exact ⟨hlen0, hlenM⟩
  refine ⟨fun a => ?_, fun p hget hasp => ?_, fun p a hget hasp hreg => ?_,
    fun p a rg hget hasp hreg hvmo => ?_, fun p hget hasp => ?_,
    fun p a hget hasp hreg => ?_, fun p a rg hget hasp hreg hvmo => ?_⟩
  · simp [VmAspace.FindRegion, List.find?_eq_none]
  · unfold sys_process_read_memory
    rw [hget]
    simp [hnull, hargs, hasp]
  · unfold sys_process_read_memory
    rw [hget]
    simp [hnull, hargs, hasp, hreg]
  · unfold sys_process_read_memory
    rw [hget]
    simp [hnull, hargs, hasp, hreg, hvmo]
  · unfold sys_process_write_memory
    rw [kMaxBlocks_eq, hget]
    simp [hnull, hargs, hasp]
  · unfold sys_process_write_memory
    rw [kMaxBlocks_eq, hget]
    simp [hnull, hargs, hasp, hreg]
  · unfold sys_process_write_memory
    rw [kMaxBlocks_eq, hget]
    cases hid : rg.vmoId with
    | none => simp [hnull, hargs, hasp, hreg, hid]
    | some id =>
      rw [hid] at hvmo
      simp only [Option.bind] at hvmo
      simp [hnull, hargs, hasp, hreg, hid, hvmo]

/-- C3 witness: against a torn-down process a read fails with `BadState`;
against the live process an unmapped address fails with `NoMemory`. -/
theorem C3_target_state_errors_witness :
    sys_process_read_memory tblDead storeA 5 4096 umOK 4 =
      ⟨MxStatus.ERR_BAD_STATE, none, none⟩ ∧
    sys_process_read_memory tblA storeA 5 100 umOK 4 =
      ⟨MxStatus.ERR_NO_MEMORY, none, none⟩ :=
  ⟨(C3_target_state_errors tblDead storeA 5 4096 umOK [] 4 rfl (by decide)
      (by decide)).2.1 ⟨2, none⟩ rfl rfl,
   (C3_target_state_errors tblA storeA 5 100 umOK [] 4 rfl (by decide)
      (by decide)).2.2.1 procA ⟨[regA]⟩ rfl rfl rfl⟩

/-- C6 (amended): for `thread_read_state` calls that pass the handle and
maximum-length checks: when the state reader returns success or
buffer-too-small, the required length is written back to the caller
provided the copy of the length to the out-parameter itself succeeds,
and if that copy fails the call returns `InvalidArgument` with nothing
reported; the bytes are copied out only when the reader succeeds; with a
working write-back, a buffer-too-small read returns the `BufferTooSmall`
status with the required length reported and no bytes. -/
theorem C6_thread_read_state_reporting (tbl : HandleTable)
    (handle state_kind : Nat) (env : ThreadReadEnv)
    (t : ThreadDispatcher) (L : Nat)
    (hthr : getThread tbl handle rightsR = .ok t)
    (hlen : env.lenIn = some L) (hmax : L ≤ kMaxThreadStateSize)
    (halloc : env.allocOk = true) :
    (∀ st newLen bytes, threadReadState t state_kind L = (st, newLen, bytes) →
      ((st = MxStatus.NO_ERROR ∨ st = MxStatus.ERR_BUFFER_TOO_SMALL) →
        env.lenOutOk = true →
        (sys_thread_read_state tbl handle state_kind env).lenOut = some newLen) ∧
      ((st = MxStatus.NO_ERROR ∨ st = MxStatus.ERR_BUFFER_TOO_SMALL) →
        env.lenOutOk = false →
        sys_thread_read_state tbl handle state_kind env =
          ⟨MxStatus.ERR_INVALID_ARGS, none, none⟩) ∧
      (st = MxStatus.ERR_BUFFER_TOO_SMALL → env.lenOutOk = true →
        sys_thread_read_state tbl handle state_kind env =
          ⟨MxStatus.ERR_BUFFER_TOO_SMALL, some newLen, none⟩)) ∧
    (∀ bs, (sys_thread_read_state tbl handle state_kind env).bytesOut = some bs →
      (threadReadState t state_kind L).1 = MxStatus.NO_ERROR) := by
  unfold sys_thread_read_state
  rw [hthr, hlen]
  have hnl : ¬(L > kMaxThreadStateSize) := Nat.not_lt.mpr hmax
  simp only [hnl, halloc, Bool.not_true, Bool.false_eq_true, if_false]
  constructor
  · intro st newLen bytes hts
    rw [hts]
    refine ⟨fun hd hok => ?_, fun hd hbad => ?_, fun hb hok => ?_⟩
    · rcases hd with rfl | rfl
      · simp [hok]
        cases hb : env.bufOutOk <;> simp [hb]
      · simp [hok]
    · rcases hd with rfl | rfl <;> simp [hbad]
    · rw [hb]
      simp [hok]
  · intro bs
    rcases hts : threadReadState t state_kind L with ⟨st, newLen, bytes⟩
    cases st <;> cases hl : env.lenOutOk <;> simp [hl]

/-- C6 counterexample: with an undersized buffer the reader returns
buffer-too-small, but a length out-pointer whose write-back fails makes
the call return `InvalidArgument` with no length reported — the call
passed the handle and maximum-length checks, refuting the claim that
the required length is always written back and the status returned as
`BufferTooSmall`. -/
theorem C6_thread_read_state_reporting_counterexample :
    (threadReadState thrT 0 0).1 = MxStatus.ERR_BUFFER_TOO_SMALL ∧
    sys_thread_read_state tblT 6 0 ⟨some 0, true, false, true⟩ =
      ⟨MxStatus.ERR_INVALID_ARGS, none, none⟩ := by
  decide

/-- C6 witness: reading state kind 0 of the concrete thread with a
0-length buffer and working pointers reports `BufferTooSmall` and the
true size 4; with a failing length write-back the same call returns
`InvalidArgument` with nothing reported. -/
theorem C6_thread_read_state_reporting_witness :
    sys_thread_read_state tblT 6 0 ⟨some 0, true, true, true⟩ =
      ⟨MxStatus.ERR_BUFFER_TOO_SMALL, some 4, none⟩ ∧
    sys_thread_read_state tblT 6 0 ⟨some 0, true, false, false⟩ =
      ⟨MxStatus.ERR_INVALID_ARGS, none, none⟩ :=
  ⟨((C6_thread_read_state_reporting tblT 6 0 ⟨some 0, true, true, true⟩ thrT 0
      rfl rfl (by decide) rfl).1
    MxStatus.ERR_BUFFER_TOO_SMALL 4 [] rfl).2.2 rfl rfl,
   ((C6_thread_read_state_reporting tblT 6 0 ⟨some 0, true, false, false⟩ thrT 0
      rfl rfl (by decide) rfl).1
    MxStatus.ERR_BUFFER_TOO_SMALL 4 [] rfl).2.1 (Or.inr rfl) rfl⟩

/-- C2 (amended): for a process handle resolving with READ and WRITE
rights, a mapped region, an address `V` inside it, and `N` bytes with
`0 < N ≤ 64 MiB`, provided the resolved object range
`[V - base + objectOffset, V - base + objectOffset + N)` lies within the
backing object, writing the `N` bytes at `V` and then reading `N` bytes
at `V` succeeds and returns the same `N` bytes. -/
theorem C2_round_trip (tbl : HandleTable) (store : VmoStore)
    (proc vaddr : Nat) (um : UserMem) (src : List Nat) (len : Nat)
    (pd : ProcessDispatcher) (r : Rights) (a : VmAspace) (rg : VmRegion)
    (id : Nat) (v : VmObject)
    (hlook : lookupHandle tbl proc = some ⟨.process pd, r⟩)
    (hread : r.read = true) (hwrite : r.write = true)
    (hnull : um.bufNull = false)
    (hcopy : um.bufCopyStatus = MxStatus.NO_ERROR)
    (hactual : um.actualOk = true)
    (hlen0 : len ≠ 0) (hlenM : len ≤ kMaxDebugWriteBlock)
    (hsrc : src.length = len)
    (hasp : pd.aspace = some a)
    (hreg : a.FindRegion vaddr = some rg)
    (hid : rg.vmoId = some id)
    (hv : store.lookup id = some v)
    (hfit : vaddr - rg.base + rg.object_offset + len ≤ v.data.length) :
    (sys_process_write_memory tbl store proc vaddr um src len).status =
      MxStatus.NO_ERROR ∧
    (sys_process_write_memory tbl store proc vaddr um src len).actualOut =
      some len ∧
    sys_process_read_memory tbl
        (sys_process_write_memory tbl store proc vaddr um src len).store
        proc vaddr um len =
      ⟨MxStatus.NO_ERROR, some src, some len⟩ := by
  have hgetW : getProcess tbl proc rightsW = .ok pd :=
    getProcess_of_entry tbl proc pd r rightsW hlook
      (by simp [Rights.includes, rightsW, hwrite])
  have hgetRW : getProcess tbl proc rightsRW = .ok pd :=
    getProcess_of_entry tbl proc pd r rightsRW hlook
      (by simp [Rights.includes, rightsRW, hread, hwrite])
  have hwres := VmObject.WriteUser_fits v um src
    (vaddr - rg.base + rg.object_offset) len hcopy hsrc hfit
  have hW := sys_process_write_memory_resolved tbl store proc vaddr um src len
    pd a rg id v MxStatus.NO_ERROR
    ⟨v.data.take (vaddr - rg.base + rg.object_offset) ++ src ++
      v.data.drop (vaddr - rg.base + rg.object_offset + len)⟩ len
    hnull hlen0 hlenM hgetW hasp hreg hid hv hwres
  rw [hW]
  simp only [if_pos rfl, hactual, if_true]
  refine ⟨trivial, trivial, ?_⟩
  have hv2 := VmoStore.lookup_update store id v
    ⟨v.data.take (vaddr - rg.base + rg.object_offset) ++ src ++
      v.data.drop (vaddr - rg.base + rg.object_offset + len)⟩ hv
  have hrres := VmObject.ReadUser_spliced
    (v.data.take (vaddr - rg.base + rg.object_offset)) src
    (v.data.drop (vaddr - rg.base + rg.object_offset + len)) um
    (vaddr - rg.base + rg.object_offset) len hcopy
    (by rw [List.length_take]; exact min_eq_left (by omega)) hsrc
  have hR := sys_process_read_memory_resolved tbl
    (store.update id ⟨v.data.take (vaddr - rg.base + rg.object_offset) ++ src ++
      v.data.drop (vaddr - rg.base + rg.object_offset + len)⟩)
    proc vaddr um len pd a rg id
    ⟨v.data.take (vaddr - rg.base + rg.object_offset) ++ src ++
      v.data.drop (vaddr - rg.base + rg.object_offset + len)⟩
    MxStatus.NO_ERROR src len
    hnull hlen0 (kMaxBlocks_eq ▸ hlenM) hgetRW hasp hreg hid hv2 hrres
  rw [hR]
  simp only [if_pos rfl, hactual, if_true]

/-- C2 counterexample: in a fully valid state (handle with READ+WRITE, a
live address space, `V = 4110` inside the mapped region) whose backing
object ends 2 bytes past the resolved offset, writing 4 bytes succeeds
with a short transfer and reading 4 bytes back does not return the 4
bytes written, refuting the claim for arbitrary `V` and `N`. -/
theorem C2_round_trip_counterexample :
    (sys_process_write_memory tblA storeA 5 4110 umOK [1, 2, 3, 4] 4).status =
      MxStatus.NO_ERROR ∧
    (sys_process_read_memory tblA
        (sys_process_write_memory tblA storeA 5 4110 umOK [1, 2, 3, 4] 4).store
        5 4110 umOK 4).bytesOut ≠ some [1, 2, 3, 4] := by
  decide

/-- C2 witness: the 4-byte round trip at `V = 4096` over the concrete
state returns the written bytes. -/
theorem C2_round_trip_witness :
    (sys_process_write_memory tblA storeA 5 4096 umOK [171, 171, 171, 171] 4).status =
      MxStatus.NO_ERROR ∧
    (sys_process_write_memory tblA storeA 5 4096 umOK [171, 171, 171, 171] 4).actualOut =
      some 4 ∧
    sys_process_read_memory tblA
        (sys_process_write_memory tblA storeA 5 4096 umOK [171, 171, 171, 171] 4).store
        5 4096 umOK 4 =
      ⟨MxStatus.NO_ERROR, some [171, 171, 171, 171], some 4⟩ :=
  C2_round_trip tblA storeA 5 4096 umOK [171, 171, 171, 171] 4
    procA ⟨true, true⟩ ⟨[regA]⟩ regA 7 ⟨List.replicate 16 0⟩
    rfl rfl rfl rfl rfl rfl (by decide) (by decide) rfl rfl rfl rfl rfl
    (by rw [List.length_replicate]; decide)

/-- C8 (amended): for memory calls that reach the storage-object
transfer, the actual count is written to the out-parameter exactly when
the transfer returns success and the write-back of the count itself
succeeds; on any transfer failure the out-parameter is not written and
the transfer's status is returned; on transfer success with a failing
write-back the out-parameter is not written and the call returns
`InvalidArgument`. -/
theorem C8_actual_size_reporting (tbl : HandleTable) (store : VmoStore)
    (proc vaddr : Nat) (um : UserMem) (src : List Nat) (len : Nat)
    (pd : ProcessDispatcher) (a : VmAspace) (rg : VmRegion) (id : Nat)
    (v : VmObject)
    (hnull : um.bufNull = false) (hlen0 : len ≠ 0)
    (hlenM : len ≤ kMaxDebugReadBlock)
    (hgetRW : getProcess tbl proc rightsRW = .ok pd)
    (hgetW : getProcess tbl proc rightsW = .ok pd)
    (hasp : pd.aspace = some a) (hreg : a.FindRegion vaddr = some rg)
    (hid : rg.vmoId = some id) (hv : store.lookup id = some v) :
    (∀ st bytes cnt,
      v.ReadUser um (vaddr - rg.base + rg.object_offset) len = (st, bytes, cnt) →
      (st ≠ MxStatus.NO_ERROR →
        sys_process_read_memory tbl store proc vaddr um len = ⟨st, none, none⟩) ∧
      (st = MxStatus.NO_ERROR → um.actualOk = true →
        sys_process_read_memory tbl store proc vaddr um len =
          ⟨MxStatus.NO_ERROR, some bytes, some cnt⟩) ∧
      (st = MxStatus.NO_ERROR → um.actualOk = false →
        (sys_process_read_memory tbl store proc vaddr um len).actualOut = none ∧
        (sys_process_read_memory tbl store proc vaddr um len).status =
          MxStatus.ERR_INVALID_ARGS)) ∧
    (∀ st vmo2 written,
      v.WriteUser um src (vaddr - rg.base + rg.object_offset) len =
        (st, vmo2, written) →
      (st ≠ MxStatus.NO_ERROR →
        (sys_process_write_memory tbl store proc vaddr um src len).status = st ∧
        (sys_process_write_memory tbl store proc vaddr um src len).actualOut =
          none) ∧
      (st = MxStatus.NO_ERROR → um.actualOk = true →
        (sys_process_write_memory tbl store proc vaddr um src len).actualOut =
          some written ∧
        (sys_process_write_memory tbl store proc vaddr um src len).status =
          MxStatus.NO_ERROR) ∧
      (st = MxStatus.NO_ERROR → um.actualOk = false →
        (sys_process_write_memory tbl store proc vaddr um src len).actualOut =
          none ∧
        (sys_process_write_memory tbl store proc vaddr um src len).status =
          MxStatus.ERR_INVALID_ARGS)) := by
  constructor
  · intro st bytes cnt hres
    have hR := sys_process_read_memory_resolved tbl store proc vaddr um len
      pd a rg id v st bytes cnt hnull hlen0 hlenM hgetRW hasp hreg hid hv hres
    rw [hR]
    refine ⟨fun hne => ?_, fun he ha => ?_, fun he ha => ?_⟩
    · rw [if_neg hne]
    · rw [he]
      simp [ha]
    · rw [he]
      simp [ha]
  · intro st vmo2 written hres
    have hW := sys_process_write_memory_resolved tbl store proc vaddr um src len
      pd a rg id v st vmo2 written hnull hlen0 (kMaxBlocks_eq ▸ hlenM)
      hgetW hasp hreg hid hv hres
    rw [hW]
    refine ⟨fun hne => ?_, fun he ha => ?_, fun he ha => ?_⟩
    · rw [if_neg hne]
      exact ⟨rfl, rfl⟩
    · rw [he]
      simp [ha]
    · rw [he]
      simp [ha]

/-- C8 counterexample: a read whose storage-object transfer succeeds but
whose actual-size write-back pointer is bad writes nothing to the
out-parameter, refuting "written if and only if the transfer returns
success". -/
theorem C8_actual_size_reporting_counterexample :
    (VmObject.ReadUser ⟨List.replicate 16 0⟩ umBadActual 0 4).1 =
      MxStatus.NO_ERROR ∧
    (sys_process_read_memory tblA storeA 5 4096 umBadActual 4).actualOut = none ∧
    (sys_process_read_memory tblA storeA 5 4096 umBadActual 4).status =
      MxStatus.ERR_INVALID_ARGS := by
  decide

/-- C8 witness: with a failing transfer status the call returns that
status and no actual size; with a good transfer and working pointers the
count is reported. -/
theorem C8_actual_size_reporting_witness :
    sys_process_read_memory tblA storeA 5 4096
        ⟨false, MxStatus.ERR_NO_MEMORY, true⟩ 4 =
      ⟨MxStatus.ERR_NO_MEMORY, none, none⟩ ∧
    sys_process_read_memory tblA storeA 5 4096 umOK 4 =
      ⟨MxStatus.NO_ERROR, some [0, 0, 0, 0], some 4⟩ :=
  ⟨((C8_actual_size_reporting tblA storeA 5 4096
      ⟨false, MxStatus.ERR_NO_MEMORY, true⟩ [] 4 procA ⟨[regA]⟩ regA 7
      ⟨List.replicate 16 0⟩ rfl (by decide) (by decide) rfl rfl rfl rfl rfl
      rfl).1 MxStatus.ERR_NO_MEMORY [] 0 rfl).1 (by decide),
   (((C8_actual_size_reporting tblA storeA 5 4096 umOK [] 4 procA ⟨[regA]⟩
      regA 7 ⟨List.replicate 16 0⟩ rfl (by decide) (by decide) rfl rfl rfl rfl
      rfl rfl).1 MxStatus.NO_ERROR [0, 0, 0, 0] 4 (by decide)).2.1 rfl rfl)⟩

/-- C10: when the storage-object write succeeds in full but the copy of
the actual byte count back to the caller fails, `process_write_memory`
returns `InvalidArgument` even though the target's memory already holds
the written bytes. -/
theorem C10_write_not_atomic (tbl : HandleTable) (store : VmoStore)
    (proc vaddr : Nat) (um : UserMem) (src : List Nat) (len : Nat)
    (pd : ProcessDispatcher) (a : VmAspace) (rg : VmRegion) (id : Nat)
    (v : VmObject)
    (hnull : um.bufNull = false)
    (hcopy : um.bufCopyStatus = MxStatus.NO_ERROR)
    (hactual : um.actualOk = false)
    (hlen0 : len ≠ 0) (hlenM : len ≤ kMaxDebugWriteBlock)
    (hsrc : src.length = len)
    (hgetW : getProcess tbl proc rightsW = .ok pd)
    (hasp : pd.aspace = some a) (hreg : a.FindRegion vaddr = some rg)
    (hid : rg.vmoId = some id) (hv : store.lookup id = some v)
    (hfit : vaddr - rg.base + rg.object_offset + len ≤ v.data.length) :
    (sys_process_write_memory tbl store proc vaddr um src len).status =
      MxStatus.ERR_INVALID_ARGS ∧
    (sys_process_write_memory tbl store proc vaddr um src len).actualOut =
      none ∧
    (sys_process_write_memory tbl store proc vaddr um src len).store.lookup id =
      some ⟨v.data.take (vaddr - rg.base + rg.object_offset) ++ src ++
        v.data.drop (vaddr - rg.base + rg.object_offset + len)⟩ := by
  have hwres := VmObject.WriteUser_fits v um src
    (vaddr - rg.base + rg.object_offset) len hcopy hsrc hfit
  have hW := sys_process_write_memory_resolved tbl store proc vaddr um src len
    pd a rg id v MxStatus.NO_ERROR
    ⟨v.data.take (vaddr - rg.base + rg.object_offset) ++ src ++
      v.data.drop (vaddr - rg.base + rg.object_offset + len)⟩ len
    hnull hlen0 hlenM hgetW hasp hreg hid hv hwres
  rw [hW]
  simp only [if_pos rfl, hactual, if_false, Bool.false_eq_true, if_true]
  exact ⟨trivial, trivial, VmoStore.lookup_update store id v _ hv⟩

/-- C10 witness: the concrete 4-byte write with a bad actual-size pointer
returns `InvalidArgument` while object 7 now holds the written bytes. -/
theorem C10_write_not_atomic_witness :
    (sys_process_write_memory tblA storeA 5 4096 umBadActual [1, 2, 3, 4] 4).status =
      MxStatus.ERR_INVALID_ARGS ∧
    (sys_process_write_memory tblA storeA 5 4096 umBadActual [1, 2, 3, 4] 4).actualOut =
      none ∧
    (sys_process_write_memory tblA storeA 5 4096 umBadActual
        [1, 2, 3, 4] 4).store.lookup 7 =
      some ⟨(List.replicate 16 0).take 0 ++ [1, 2, 3, 4] ++
        (List.replicate 16 0).drop 4⟩ :=
  C10_write_not_atomic tblA storeA 5 4096 umBadActual [1, 2, 3, 4] 4
    procA ⟨[regA]⟩ regA 7 ⟨List.replicate 16 0⟩
    rfl rfl rfl (by decide) (by decide) rfl rfl rfl rfl rfl rfl
    (by rw [List.length_replicate]; decide)

end Magenta
